import Mathlib

/-!
Verification of the territory-coverage geometry engine of the Zenbooker MCP
server (`src/tools/scheduling.ts`).  The engine geocodes a free-text address,
synthesizes approximate polygons for each active territory from its postal
codes and city names, and tests point-in-polygon containment with a
nearest-territory fallback.

The embedding models geocoding as an oracle `geo : String → Option Coordinates`
(`none` = the lookup returned zero results and `geocodeAddress` threw), the
`GET /territories` fetch as an `Except String (List Territory)` value, and the
floating-point coordinates as rationals.
-/

namespace Zenbooker

/-- Geographic coordinates, mirroring the `Coordinates` interface
(`latitude`, `longitude`). -/
structure Coordinates where
  latitude : ℚ
  longitude : ℚ
deriving DecidableEq, Repr

/-- A territory record as returned by `GET /territories`
(mirrors the `Territory` interface of `types.ts`; the
`created_at` / `updated_at` strings are irrelevant to the engine and omitted). -/
structure Territory where
  id : String
  name : String
  description : Option String
  zip_codes : Option (List String)
  cities : Option (List String)
  states : Option (List String)
  active : Bool
deriving DecidableEq, Repr

/-- `TerritoryWithBoundaries extends Territory` with optional `boundaries`
and `center`. -/
structure TerritoryWithBoundaries where
  territory : Territory
  boundaries : Option (List Coordinates)
  center : Option Coordinates
deriving DecidableEq, Repr

/-- The query string used for a city in `createTerritoryBoundaries`:
`` `${city}, ${states[0]}` `` when the territory has a first state code that is
truthy (a non-empty string), else the bare city name. -/
def cityQuery (t : Territory) (city : String) : String :=
  match t.states with
  | some (s :: _) => if s = "" then city else city ++ ", " ++ s
  | _ => city

/-- The postal-code queries attempted by `createTerritoryBoundaries`:
the first 5 zip codes (`territory.zip_codes.slice(0, 5)`), guarded by
`territory.zip_codes && territory.zip_codes.length > 0`. -/
def zipQs (t : Territory) : List String :=
  match t.zip_codes with
  | some zs => if 0 < zs.length then zs.take 5 else []
  | none => []

/-- The city queries attempted by `createTerritoryBoundaries` when the city
loop runs: the first 3 cities (`territory.cities.slice(0, 3)`), each turned
into a query via `cityQuery`, guarded by
`territory.cities && territory.cities.length > 0`. -/
def cityQs (t : Territory) : List String :=
  match t.cities with
  | some cs => if 0 < cs.length then (cs.take 3).map (cityQuery t) else []
  | none => []

/-- The boundary vertices collected by the zip-code loop: each successful
geocode is pushed, failures are caught and skipped. -/
def zipPoints (geo : String → Option Coordinates) (t : Territory) :
    List Coordinates :=
  (zipQs t).filterMap geo

/-- The boundary vertices collected by the city loop (when it runs). -/
def cityPoints (geo : String → Option Coordinates) (t : Territory) :
    List Coordinates :=
  (cityQs t).filterMap geo

/-- All vertices collected by the two geocoding loops of
`createTerritoryBoundaries`, in push order.  The city loop only runs when
fewer than 3 vertices were obtained from zip codes
(`boundaries.length < 3`). -/
def rawPoints (geo : String → Option Coordinates) (t : Territory) :
    List Coordinates :=
  let zp := zipPoints geo t
  if zp.length < 3 then zp ++ cityPoints geo t else zp

/-- The geocoding queries actually attempted for a territory: all (capped)
zip-code queries, then the (capped) city queries when the city loop runs. -/
def attemptedQs (geo : String → Option Coordinates) (t : Territory) :
    List String :=
  if (zipPoints geo t).length < 3 then zipQs t ++ cityQs t else zipQs t

/-- Every geocoding query `createTerritoryBoundaries` may issue for a
territory (a superset of `attemptedQs`). -/
def territoryQs (t : Territory) : List String :=
  zipQs t ++ cityQs t

/-- The 4 corners pushed by the square fallback of
`createTerritoryBoundaries`: offsets of ±0.15 degrees from `center`, in
source push order. -/
def squareCorners (c : Coordinates) : List Coordinates :=
  [⟨c.latitude + 3/20, c.longitude + 3/20⟩,
   ⟨c.latitude + 3/20, c.longitude - 3/20⟩,
   ⟨c.latitude - 3/20, c.longitude - 3/20⟩,
   ⟨c.latitude - 3/20, c.longitude + 3/20⟩]

/-- The final vertex list of `createTerritoryBoundaries`: when fewer than 3
points were geocoded and a center exists, the 4 square corners are *pushed
onto the existing list* (`boundaries.push(...)`). -/
def finalVertices (geo : String → Option Coordinates) (t : Territory) :
    List Coordinates :=
  let raw := rawPoints geo t
  if raw.length < 3 then
    match raw.head? with
    | some c => raw ++ squareCorners c
    | none => raw
  else raw

/-- `createTerritoryBoundaries`: synthesize a territory's approximate
boundary.  `center` is the first successfully geocoded point; `boundaries`
is returned only when the final vertex list has at least 3 entries
(`boundaries.length >= 3 ? boundaries : undefined`). -/
def createTerritoryBoundaries (geo : String → Option Coordinates)
    (t : Territory) : TerritoryWithBoundaries :=
  let vs := finalVertices geo t
  { territory := t
    boundaries := if 3 ≤ vs.length then some vs else none
    center := (rawPoints geo t).head? }

/-- Modelled from the spec: one edge test of the standard ray-casting
point-in-polygon algorithm used by the external `geolib.isPointInPolygon`
dependency (not part of this repository) — a horizontal ray from the point
crosses the edge from `vi` to `vj` when the point's longitude lies in the
edge's half-open longitude span and the point's latitude is strictly below
the edge at that longitude. -/
def edgeCrosses (p vi vj : Coordinates) : Bool :=
  (decide (vi.longitude ≤ p.longitude ∧ p.longitude < vj.longitude) ||
   decide (vj.longitude ≤ p.longitude ∧ p.longitude < vi.longitude)) &&
  decide (p.latitude <
    (vj.latitude - vi.latitude) * (p.longitude - vi.longitude) /
      (vj.longitude - vi.longitude) + vi.latitude)

/-- Modelled from the spec: `geolib.isPointInPolygon` — a point is inside
when a ray from the point crosses an odd number of polygon edges; the edges
pair each vertex with its predecessor (the first vertex with the last). -/
def isPointInPolygon (p : Coordinates) (poly : List Coordinates) : Bool :=
  match poly.getLast? with
  | none => false
  | some last =>
    (poly.zip (last :: poly.dropLast)).foldl
      (fun inside vv => if edgeCrosses p vv.1 vv.2 then !inside else inside)
      false

/-- The containment test applied to one synthesized territory in the
coverage loop: `territoryWithBoundaries.boundaries &&
territoryWithBoundaries.boundaries.length >= 3 && isPointInPolygon(...)`. -/
def territoryContains (geo : String → Option Coordinates) (p : Coordinates)
    (t : Territory) : Bool :=
  match (createTerritoryBoundaries geo t).boundaries with
  | some b => decide (3 ≤ b.length) && isPointInPolygon p b
  | none => false

/-- One row of the `territories_analysis` array of the response. -/
structure AnalysisEntry where
  territory_id : String
  territory_name : String
  is_covered : Bool
  distance_meters : Option ℚ
deriving DecidableEq, Repr

/-- The mutable state of the coverage loop in
`checkTerritoryCoverageTool.handler`: `coveredByTerritory`,
`closestTerritory`, and the `results` array.  `synthesized` is a ghost
field recording, in order, the territories for which
`createTerritoryBoundaries` was invoked. -/
structure LoopState where
  covered : Option TerritoryWithBoundaries
  closest : Option (TerritoryWithBoundaries × ℚ)
  results : List AnalysisEntry
  synthesized : List Territory
deriving DecidableEq, Repr

/-- The loop state before the first iteration. -/
def initialState : LoopState := ⟨none, none, [], []⟩

/-- The non-covering tail of one loop iteration: update `closestTerritory`
when the synthesized territory has a center and is strictly closer, then
push the analysis entry (which recomputes the distance). -/
def noCoverUpdate (dist : Coordinates → Coordinates → ℚ) (p : Coordinates)
    (st : LoopState) (twb : TerritoryWithBoundaries) (t : Territory) :
    LoopState :=
  let st2 :=
    match twb.center with
    | some c =>
      let d := dist p c
      match st.closest with
      | none => { st with closest := some (twb, d) }
      | some (_, d0) =>
        if d < d0 then { st with closest := some (twb, d) } else st
    | none => st
  { st2 with
    results := st2.results ++
      [{ territory_id := t.id
         territory_name := t.name
         is_covered := false
         distance_meters := twb.center.map (dist p) }] }

/-- The `for (const territory of territoriesResponse.results)` loop:
inactive territories are skipped; for each active one the boundary is
synthesized and tested; on containment the covering territory is recorded
and the loop breaks. -/
def coverageLoop (geo : String → Option Coordinates)
    (dist : Coordinates → Coordinates → ℚ) (p : Coordinates) :
    LoopState → List Territory → LoopState
  | st, [] => st
  | st, t :: rest =>
    if t.active then
      let twb := createTerritoryBoundaries geo t
      let st1 := { st with synthesized := st.synthesized ++ [t] }
      if territoryContains geo p t then
        { st1 with covered := some twb }
      else
        coverageLoop geo dist p (noCoverUpdate dist p st1 twb t) rest
    else
      coverageLoop geo dist p st rest

/-- The `covered_by_territory` object of the response. -/
structure CoveredInfo where
  id : String
  name : String
  description : Option String
  zip_codes : Option (List String)
  cities : Option (List String)
  states : Option (List String)
deriving DecidableEq, Repr

/-- The `closest_territory` object of the response. -/
structure ClosestInfo where
  id : String
  name : String
  distance_meters : ℚ
  distance_miles : ℚ
deriving DecidableEq, Repr

/-- JavaScript `Math.round`: round half towards positive infinity. -/
def jsRound (x : ℚ) : ℤ := ⌊x + 1/2⌋

/-- The structured `response` object assembled by the handler. -/
structure CoverageResponse where
  address : String
  coordinates : Coordinates
  coverage_status : String
  covered_by_territory : Option CoveredInfo
  closest_territory : Option ClosestInfo
  all_territories_checked : ℕ
  territories_analysis : List AnalysisEntry
deriving DecidableEq, Repr

/-- Assemble the `response` object from the final loop state. -/
def buildResponse (address : String) (coords : Coordinates)
    (st : LoopState) : CoverageResponse :=
  { address := address
    coordinates := coords
    coverage_status := if st.covered.isSome then "covered" else "not_covered"
    covered_by_territory := st.covered.map fun twb =>
      { id := twb.territory.id
        name := twb.territory.name
        description := twb.territory.description
        zip_codes := twb.territory.zip_codes
        cities := twb.territory.cities
        states := twb.territory.states }
    closest_territory := st.closest.map fun td =>
      { id := td.1.territory.id
        name := td.1.territory.name
        distance_meters := td.2
        distance_miles := (jsRound (td.2 * (621371/1000000000) * 100) : ℚ) / 100 }
    all_territories_checked := st.results.length
    territories_analysis := st.results }

/-- The outcome of the handler: either the successful structured response or
the error-flagged result (`isError: true`) carrying only a message. -/
inductive HandlerResult where
  | ok (r : CoverageResponse)
  | error (msg : String)
deriving DecidableEq, Repr

/-- The handler outcome together with the ghost flag recording whether the
`GET /territories` request was issued. -/
structure HandlerOutcome where
  result : HandlerResult
  territoriesFetched : Bool
deriving DecidableEq, Repr

/-- The error text produced by the handler's `catch` block. -/
def coverageErrorText (msg : String) : String :=
  "❌ **Error checking territory coverage**: " ++ msg

/-- The message `geocodeAddress` throws when the lookup returns zero
results, after the outer wrapper. -/
def geocodeFailMsg (address : String) : String :=
  "Geocoding failed: Could not geocode address: " ++ address

/-- `checkTerritoryCoverageTool.handler`: geocode the address (a failure
throws and is caught, producing an error-flagged result before the
territories request), fetch the territories (a failure likewise ends in the
`catch` block), run the coverage loop, and assemble the response. -/
def checkTerritoryCoverage (geo : String → Option Coordinates)
    (dist : Coordinates → Coordinates → ℚ)
    (fetch : Except String (List Territory)) (address : String) :
    HandlerOutcome :=
  match geo address with
  | none => ⟨.error (coverageErrorText (geocodeFailMsg address)), false⟩
  | some coords =>
    match fetch with
    | .error e => ⟨.error (coverageErrorText e), true⟩
    | .ok ts =>
      ⟨.ok (buildResponse address coords
        (coverageLoop geo dist coords initialState ts)), true⟩

/-! ## Helper lemmas about boundary synthesis -/

/-- When fewer than 3 points geocoded but a first point exists, the returned
`boundaries` are the raw points with the 4 square corners pushed on. -/
lemma boundaries_fallback (geo : String → Option Coordinates) (t : Territory)
    (c : Coordinates) (h1 : (rawPoints geo t).head? = some c)
    (h2 : (rawPoints geo t).length ≤ 2) :
    (createTerritoryBoundaries geo t).boundaries
      = some (rawPoints geo t ++ squareCorners c) := by
  have hlt : (rawPoints geo t).length < 3 := by omega
  have hlen : (rawPoints geo t ++ squareCorners c).length
      = (rawPoints geo t).length + 4 := by
    simp [squareCorners]
  simp only [createTerritoryBoundaries, finalVertices, hlt, if_pos, h1, hlen]
  rw [if_pos (by omega)]

/-- The center of a synthesized square is contained in the polygon obtained
by pushing the 4 square corners after the center itself. -/
lemma center_in_center_square (c : Coordinates) :
    isPointInPolygon c (c :: squareCorners c) = true := by
  obtain ⟨la, lo⟩ := c
  simp [isPointInPolygon, squareCorners, edgeCrosses]
  norm_num

/-! ## Concrete fixtures used by counterexamples and witnesses -/

/-- A geocoding oracle resolving only the zip code `"z1"`. -/
def geoOne : String → Option Coordinates :=
  fun s => if s = "z1" then some ⟨0, 0⟩ else none

/-- A territory with the single zip code `"z1"`. -/
def terOne : Territory :=
  { id := "T1", name := "Alpha", description := none,
    zip_codes := some ["z1"], cities := none, states := none, active := true }

/-- A geocoding oracle resolving the zip codes `"z1"` and `"z2"`. -/
def geoTwo : String → Option Coordinates :=
  fun s => if s = "z1" then some ⟨0, 0⟩
    else if s = "z2" then some ⟨10, -1/20⟩ else none

/-- A territory with the two zip codes `"z1"` and `"z2"`. -/
def terTwo : Territory :=
  { id := "T2", name := "Beta", description := none,
    zip_codes := some ["z1", "z2"], cities := none, states := none,
    active := true }

/-- A geocoding oracle resolving the zip codes `"z1"`, `"z2"` and `"z3"`. -/
def geoThree : String → Option Coordinates :=
  fun s => if s = "z1" then some ⟨0, 0⟩
    else if s = "z2" then some ⟨1, 0⟩
    else if s = "z3" then some ⟨0, 1⟩ else none

/-- A territory with the three zip codes `"z1"`, `"z2"` and `"z3"`. -/
def terThree : Territory :=
  { id := "T3", name := "Gamma", description := none,
    zip_codes := some ["z1", "z2", "z3"], cities := none, states := none,
    active := true }

/-! ## Claims about `createTerritoryBoundaries` -/

/-- C1, counterexample: a territory with a single geocodable zip code has
0–2 geocoded points and a resolved center, yet `createTerritoryBoundaries`
returns 5 vertices, not 4 — the square corners are pushed onto the existing
point, not substituted for it. -/
theorem C1_counterexample :
    (rawPoints geoOne terOne).length ≤ 2 ∧
    (createTerritoryBoundaries geoOne terOne).center = some ⟨0, 0⟩ ∧
    ((createTerritoryBoundaries geoOne terOne).boundaries.getD []).length = 5 := by
  refine ⟨?_, ?_, ?_⟩ <;>
    simp +decide [createTerritoryBoundaries, finalVertices, squareCorners,
      rawPoints, zipPoints, cityPoints, zipQs, cityQs, geoOne, terOne,
      List.filterMap]

/-- C1 (amended): for every territory with 1 or 2 successfully geocoded
boundary points (a center is resolved only in that case),
`createTerritoryBoundaries` returns a vertex list with exactly 4 + k
vertices: the k geocoded points followed by the 4 corners of the square
offset by ±0.15 degrees from the center. -/
theorem C1_theorem (geo : String → Option Coordinates) (t : Territory)
    (c : Coordinates) (h1 : (rawPoints geo t).head? = some c)
    (h2 : (rawPoints geo t).length ≤ 2) :
    (createTerritoryBoundaries geo t).boundaries
      = some (rawPoints geo t ++ squareCorners c) ∧
    ((createTerritoryBoundaries geo t).boundaries.getD []).length
      = (rawPoints geo t).length + 4 := by
  have hb := boundaries_fallback geo t c h1 h2
  refine ⟨hb, ?_⟩
  simp [hb, squareCorners]

/-- C1, witness: the amended claim at the one-zip fixture. -/
theorem C1_witness :
    (createTerritoryBoundaries geoOne terOne).boundaries
      = some (rawPoints geoOne terOne ++ squareCorners ⟨0, 0⟩) ∧
    ((createTerritoryBoundaries geoOne terOne).boundaries.getD []).length
      = (rawPoints geoOne terOne).length + 4 :=
  C1_theorem geoOne terOne ⟨0, 0⟩
    (by simp +decide [rawPoints, zipPoints, cityPoints, zipQs, cityQs,
      geoOne, terOne, List.filterMap])
    (by simp +decide [rawPoints, zipPoints, cityPoints, zipQs, cityQs,
      geoOne, terOne, List.filterMap])

/-- C6: for every territory with at least 3 successfully geocoded boundary
points, `createTerritoryBoundaries` returns exactly those points as the
defined `boundaries`; the square fallback is not applied. -/
theorem C6_theorem (geo : String → Option Coordinates) (t : Territory)
    (h : 3 ≤ (rawPoints geo t).length) :
    (createTerritoryBoundaries geo t).boundaries = some (rawPoints geo t) ∧
    ((createTerritoryBoundaries geo t).boundaries.getD []).length
      = (rawPoints geo t).length := by
  have hlt : ¬ (rawPoints geo t).length < 3 := by omega
  constructor <;>
    simp [createTerritoryBoundaries, finalVertices, hlt, h]

/-- C6, witness: the claim at the three-zip fixture. -/
theorem C6_witness :
    (createTerritoryBoundaries geoThree terThree).boundaries
      = some (rawPoints geoThree terThree) ∧
    ((createTerritoryBoundaries geoThree terThree).boundaries.getD []).length
      = (rawPoints geoThree terThree).length :=
  C6_theorem geoThree terThree
    (by simp +decide [rawPoints, zipPoints, cityPoints, zipQs, cityQs,
      geoThree, terThree, List.filterMap])

/-- C10: the synthesized `center` is exactly the first successfully geocoded
point (so it is defined iff at least one geocode succeeded), and the square
fallback can only fire when the raw vertex list holds 1 or 2 points. -/
theorem C10_theorem (geo : String → Option Coordinates) (t : Territory) :
    (createTerritoryBoundaries geo t).center = (rawPoints geo t).head? ∧
    ((createTerritoryBoundaries geo t).center.isSome ↔ rawPoints geo t ≠ []) ∧
    ((rawPoints geo t).length < 3 →
      (createTerritoryBoundaries geo t).center.isSome →
      1 ≤ (rawPoints geo t).length ∧ (rawPoints geo t).length ≤ 2) := by
  refine ⟨rfl, ?_, ?_⟩
  · cases h : rawPoints geo t <;>
      simp [createTerritoryBoundaries, h]
  · intro hlt hsome
    have hc : (createTerritoryBoundaries geo t).center
        = (rawPoints geo t).head? := rfl
    rw [hc] at hsome
    have hne : rawPoints geo t ≠ [] := by
      intro hnil
      rw [hnil] at hsome
      simp at hsome
    have : 0 < (rawPoints geo t).length := List.length_pos.mpr hne
    omega

/-- C10, witness: the claim at the one-zip fixture. -/
theorem C10_witness :
    1 ≤ (rawPoints geoOne terOne).length ∧
    (rawPoints geoOne terOne).length ≤ 2 :=
  (C10_theorem geoOne terOne).2.2
    (by simp +decide [rawPoints, zipPoints, cityPoints, zipQs, cityQs,
      geoOne, terOne, List.filterMap])
    (by simp +decide [createTerritoryBoundaries, rawPoints, zipPoints,
      cityPoints, zipQs, cityQs, geoOne, terOne, List.filterMap])

/-- C3, counterexample: a territory with two geocoded points takes the
square fallback (fewer than 3 points, center resolved), yet the query point
equal to the center is *not* contained in the synthesized polygon — the two
leftover points prepended to the square corners change the ray-crossing
parity. -/
theorem C3_counterexample :
    (rawPoints geoTwo terTwo).length < 3 ∧
    (createTerritoryBoundaries geoTwo terTwo).center = some ⟨0, 0⟩ ∧
    isPointInPolygon ⟨0, 0⟩
      ((createTerritoryBoundaries geoTwo terTwo).boundaries.getD [])
      = false := by
  refine ⟨?_, ?_, ?_⟩ <;>
    simp +decide [createTerritoryBoundaries, finalVertices, squareCorners,
      rawPoints, zipPoints, cityPoints, zipQs, cityQs, geoTwo, terTwo,
      List.filterMap, isPointInPolygon, edgeCrosses]
  norm_num

/-- C3 (amended): for every territory whose synthesized polygon took the
square fallback with exactly one successfully geocoded point (so the
polygon is the center followed by the 4 square corners), a query point
exactly equal to the center is contained in the polygon. -/
theorem C3_theorem (geo : String → Option Coordinates) (t : Territory)
    (c : Coordinates) (h : rawPoints geo t = [c]) :
    isPointInPolygon c
      ((createTerritoryBoundaries geo t).boundaries.getD []) = true := by
  have hb := boundaries_fallback geo t c (by simp [h]) (by simp [h])
  rw [hb, h]
  simpa using center_in_center_square c

/-- C3, witness: the amended claim at the one-zip fixture. -/
theorem C3_witness :
    isPointInPolygon ⟨0, 0⟩
      ((createTerritoryBoundaries geoOne terOne).boundaries.getD [])
      = true :=
  C3_theorem geoOne terOne ⟨0, 0⟩
    (by simp +decide [rawPoints, zipPoints, cityPoints, zipQs, cityQs,
      geoOne, terOne, List.filterMap])

/-! ## Helper lemmas about the coverage loop -/

/-- The analysis entry pushed for a non-covering active territory. -/
def analysisEntry (geo : String → Option Coordinates)
    (dist : Coordinates → Coordinates → ℚ) (p : Coordinates)
    (t : Territory) : AnalysisEntry :=
  { territory_id := t.id
    territory_name := t.name
    is_covered := false
    distance_meters := (createTerritoryBoundaries geo t).center.map (dist p) }

lemma noCoverUpdate_covered (dist : Coordinates → Coordinates → ℚ)
    (p : Coordinates) (st : LoopState) (twb : TerritoryWithBoundaries)
    (t : Territory) :
    (noCoverUpdate dist p st twb t).covered = st.covered := by
  unfold noCoverUpdate
  rcases hc : twb.center with _ | c
  · rfl
  · rcases hcl : st.closest with _ | ⟨t0, d0⟩
    · rfl
    · by_cases hd : dist p c < d0 <;> simp [hd]

lemma noCoverUpdate_synthesized (dist : Coordinates → Coordinates → ℚ)
    (p : Coordinates) (st : LoopState) (twb : TerritoryWithBoundaries)
    (t : Territory) :
    (noCoverUpdate dist p st twb t).synthesized = st.synthesized := by
  unfold noCoverUpdate
  rcases hc : twb.center with _ | c
  · rfl
  · rcases hcl : st.closest with _ | ⟨t0, d0⟩
    · rfl
    · by_cases hd : dist p c < d0 <;> simp [hd]

lemma noCoverUpdate_results (dist : Coordinates → Coordinates → ℚ)
    (p : Coordinates) (st : LoopState) (twb : TerritoryWithBoundaries)
    (t : Territory) :
    (noCoverUpdate dist p st twb t).results = st.results ++
      [{ territory_id := t.id, territory_name := t.name, is_covered := false,
         distance_meters := twb.center.map (dist p) }] := by
  unfold noCoverUpdate
  rcases hc : twb.center with _ | c
  · simp
  · rcases hcl : st.closest with _ | ⟨t0, d0⟩
    · simp
    · by_cases hd : dist p c < d0 <;> simp [hd]

lemma noCoverUpdate_closest (dist : Coordinates → Coordinates → ℚ)
    (p : Coordinates) (st : LoopState) (twb : TerritoryWithBoundaries)
    (t : Territory) :
    (noCoverUpdate dist p st twb t).closest = st.closest ∨
      ∃ d, (noCoverUpdate dist p st twb t).closest = some (twb, d) := by
  unfold noCoverUpdate
  rcases hc : twb.center with _ | c
  · left; rfl
  · rcases hcl : st.closest with _ | ⟨t0, d0⟩
    · right; exact ⟨dist p c, rfl⟩
    · by_cases hd : dist p c < d0
      · right; exact ⟨dist p c, by simp [hd]⟩
      · left; simp [hd, hcl]

/-- Scanning a list whose first active containing territory is `tstar`:
the loop ignores everything after `tstar`, records `tstar` as covering,
synthesizes exactly the active territories up to and including `tstar`,
and pushes analysis entries exactly for the active territories strictly
before `tstar`. -/
lemma coverageLoop_firstMatch (geo : String → Option Coordinates)
    (dist : Coordinates → Coordinates → ℚ) (p : Coordinates)
    (tstar : Territory) (post : List Territory)
    (hact : tstar.active = true)
    (hcont : territoryContains geo p tstar = true) :
    ∀ (l : List Territory) (st : LoopState),
      (∀ t ∈ l, t.active = true → territoryContains geo p t = false) →
      coverageLoop geo dist p st (l ++ tstar :: post)
        = coverageLoop geo dist p st (l ++ [tstar]) ∧
      (coverageLoop geo dist p st (l ++ tstar :: post)).covered
        = some (createTerritoryBoundaries geo tstar) ∧
      (coverageLoop geo dist p st (l ++ tstar :: post)).synthesized
        = st.synthesized ++ l.filter (fun t => t.active) ++ [tstar] ∧
      (coverageLoop geo dist p st (l ++ tstar :: post)).results
        = st.results ++
            (l.filter (fun t => t.active)).map (analysisEntry geo dist p) := by
  intro l
  induction l with
  | nil =>
    intro st _
    simp [coverageLoop, hact, hcont]
  | cons t l ih =>
    intro st hl
    have ht := hl t (List.mem_cons_self t l)
    by_cases ha : t.active = true
    · have hcf : territoryContains geo p t = false := ht ha
      have hl' : ∀ t' ∈ l, t'.active = true →
          territoryContains geo p t' = false :=
        fun t' ht' => hl t' (List.mem_cons_of_mem t ht')
      obtain ⟨e1, e2, e3, e4⟩ := ih
        (noCoverUpdate dist p
          { st with synthesized := st.synthesized ++ [t] }
          (createTerritoryBoundaries geo t) t) hl'
      simp only [List.cons_append, coverageLoop, ha, if_true, hcf,
        Bool.false_eq_true, if_false, List.append_eq]
      refine ⟨e1, e2, ?_, ?_⟩
      · rw [e3, noCoverUpdate_synthesized]
        simp [List.filter_cons, ha]
      · rw [e4, noCoverUpdate_results]
        simp [List.filter_cons, ha, analysisEntry]
    · have hl' : ∀ t' ∈ l, t'.active = true →
          territoryContains geo p t' = false :=
        fun t' ht' => hl t' (List.mem_cons_of_mem t ht')
      obtain ⟨e1, e2, e3, e4⟩ := ih st hl'
      simp only [List.cons_append, coverageLoop, ha, Bool.false_eq_true,
        if_false, List.append_eq]
      refine ⟨e1, e2, ?_, ?_⟩
      · rw [e3]; simp [List.filter_cons, ha]
      · rw [e4]; simp [List.filter_cons, ha]

/-- Only active territories can ever appear as `coveredByTerritory`, as
`closestTerritory`, or in the synthesis trace. -/
lemma coverageLoop_active_invariant (geo : String → Option Coordinates)
    (dist : Coordinates → Coordinates → ℚ) (p : Coordinates) :
    ∀ (ts : List Territory) (st : LoopState),
      (∀ twb, st.covered = some twb → twb.territory.active = true) →
      (∀ twb d, st.closest = some (twb, d) → twb.territory.active = true) →
      (∀ t ∈ st.synthesized, t.active = true) →
      ((∀ twb, (coverageLoop geo dist p st ts).covered = some twb →
          twb.territory.active = true) ∧
       (∀ twb d, (coverageLoop geo dist p st ts).closest = some (twb, d) →
          twb.territory.active = true) ∧
       (∀ t ∈ (coverageLoop geo dist p st ts).synthesized,
          t.active = true)) := by
  intro ts
  induction ts with
  | nil =>
    intro st h1 h2 h3
    exact ⟨h1, h2, h3⟩
  | cons t ts ih =>
    intro st h1 h2 h3
    by_cases ha : t.active = true
    · by_cases hc : territoryContains geo p t = true
      · simp only [coverageLoop, ha, if_true, hc]
        refine ⟨?_, ?_, ?_⟩
        · intro twb htwb
          obtain rfl : createTerritoryBoundaries geo t = twb := by
            simpa using htwb
          exact ha
        · intro twb d htwb
          exact h2 twb d htwb
        · intro t' ht'
          rcases List.mem_append.mp ht' with h | h
          · exact h3 t' h
          · obtain rfl : t' = t := by simpa using h
            exact ha
      · have hc' : territoryContains geo p t = false := by
          simpa using hc
        simp only [coverageLoop, ha, if_true, hc', Bool.false_eq_true,
          if_false]
        apply ih
        · intro twb htwb
          rw [noCoverUpdate_covered] at htwb
          exact h1 twb htwb
        · intro twb d htwb
          rcases noCoverUpdate_closest dist p
              { st with synthesized := st.synthesized ++ [t] }
              (createTerritoryBoundaries geo t) t with heq | ⟨d0, heq⟩
          · rw [heq] at htwb
            exact h2 twb d htwb
          · rw [heq] at htwb
            obtain ⟨rfl, -⟩ : createTerritoryBoundaries geo t = twb ∧ d0 = d := by
              constructor <;> [skip; skip] <;>
                · injection htwb with hh
                  first
                    | exact congrArg Prod.fst hh
                    | exact congrArg Prod.snd hh
            exact ha
        · intro t' ht'
          rw [noCoverUpdate_synthesized] at ht'
          rcases List.mem_append.mp ht' with h | h
          · exact h3 t' h
          · obtain rfl : t' = t := by simpa using h
            exact ha
    · have ha' : t.active = false := by simpa using ha
      simp only [coverageLoop, ha', Bool.false_eq_true, if_false]
      exact ih st h1 h2 h3

/-- If no active territory contains the point, no covering territory is
ever recorded. -/
lemma coverageLoop_covered_none (geo : String → Option Coordinates)
    (dist : Coordinates → Coordinates → ℚ) (p : Coordinates) :
    ∀ (ts : List Territory) (st : LoopState),
      st.covered = none →
      (∀ t ∈ ts, t.active = true → territoryContains geo p t = false) →
      (coverageLoop geo dist p st ts).covered = none := by
  intro ts
  induction ts with
  | nil => intro st h _; exact h
  | cons t ts ih =>
    intro st h hl
    by_cases ha : t.active = true
    · have hc : territoryContains geo p t = false :=
        hl t (List.mem_cons_self t ts) ha
      simp only [coverageLoop, ha, if_true, hc, Bool.false_eq_true, if_false]
      apply ih
      · rw [noCoverUpdate_covered]; exact h
      · exact fun t' ht' => hl t' (List.mem_cons_of_mem t ht')
    · have ha' : t.active = false := by simpa using ha
      simp only [coverageLoop, ha', Bool.false_eq_true, if_false]
      exact ih st h (fun t' ht' => hl t' (List.mem_cons_of_mem t ht'))

/-! ## Claims about the coverage-check handler -/

/-- C2: the covering territory is the first territory in list order that is
active and whose synthesized (≥3-vertex) boundary contains the point; once
found, the loop breaks — the synthesis trace ends at that territory and the
whole run equals the run on the truncated list. -/
theorem C2_theorem (geo : String → Option Coordinates)
    (dist : Coordinates → Coordinates → ℚ) (p : Coordinates)
    (pre post : List Territory) (tstar : Territory)
    (hact : tstar.active = true)
    (hcont : territoryContains geo p tstar = true)
    (hpre : ∀ t ∈ pre, t.active = true → territoryContains geo p t = false) :
    (coverageLoop geo dist p initialState (pre ++ tstar :: post)).covered
      = some (createTerritoryBoundaries geo tstar) ∧
    (coverageLoop geo dist p initialState (pre ++ tstar :: post)).synthesized
      = pre.filter (fun t => t.active) ++ [tstar] ∧
    coverageLoop geo dist p initialState (pre ++ tstar :: post)
      = coverageLoop geo dist p initialState (pre ++ [tstar]) := by
  obtain ⟨e1, e2, e3, e4⟩ :=
    coverageLoop_firstMatch geo dist p tstar post hact hcont pre
      initialState hpre
  exact ⟨e2, by simpa [initialState] using e3, e1⟩

/-- The one-zip fixture territory contains the origin point. -/
lemma terOne_contains : territoryContains geoOne ⟨0, 0⟩ terOne = true := by
  simp +decide [territoryContains, createTerritoryBoundaries, finalVertices,
    squareCorners, rawPoints, zipPoints, cityPoints, zipQs, cityQs, geoOne,
    terOne, List.filterMap, isPointInPolygon, edgeCrosses]
  norm_num

/-- C2, witness: a single containing territory is found and recorded. -/
theorem C2_witness :
    (coverageLoop geoOne (fun _ _ => 0) ⟨0, 0⟩ initialState
        ([] ++ terOne :: [])).covered
      = some (createTerritoryBoundaries geoOne terOne) ∧
    (coverageLoop geoOne (fun _ _ => 0) ⟨0, 0⟩ initialState
        ([] ++ terOne :: [])).synthesized
      = List.filter (fun t => t.active) [] ++ [terOne] ∧
    coverageLoop geoOne (fun _ _ => 0) ⟨0, 0⟩ initialState
        ([] ++ terOne :: [])
      = coverageLoop geoOne (fun _ _ => 0) ⟨0, 0⟩ initialState
        ([] ++ [terOne]) :=
  C2_theorem geoOne (fun _ _ => 0) ⟨0, 0⟩ [] [] terOne rfl
    terOne_contains (by simp)

/-- C9: when the result is `covered`, `all_territories_checked` counts and
`territories_analysis` lists exactly the active territories strictly before
the covering one; the covering territory and everything after it are
excluded. -/
theorem C9_theorem (geo : String → Option Coordinates)
    (dist : Coordinates → Coordinates → ℚ) (p : Coordinates)
    (address : String) (pre post : List Territory) (tstar : Territory)
    (hgeo : geo address = some p)
    (hact : tstar.active = true)
    (hcont : territoryContains geo p tstar = true)
    (hpre : ∀ t ∈ pre, t.active = true → territoryContains geo p t = false) :
    ∃ r, (checkTerritoryCoverage geo dist
        (.ok (pre ++ tstar :: post)) address).result = .ok r ∧
      r.coverage_status = "covered" ∧
      r.all_territories_checked = (pre.filter (fun t => t.active)).length ∧
      r.territories_analysis
        = (pre.filter (fun t => t.active)).map (analysisEntry geo dist p) := by
  obtain ⟨e1, e2, e3, e4⟩ :=
    coverageLoop_firstMatch geo dist p tstar post hact hcont pre
      initialState hpre
  refine ⟨buildResponse address p
    (coverageLoop geo dist p initialState (pre ++ tstar :: post)),
    ?_, ?_, ?_, ?_⟩
  · simp [checkTerritoryCoverage, hgeo]
  · simp [buildResponse, e2]
  · simp only [buildResponse]
    rw [e4]
    simp [initialState]
  · simp only [buildResponse]
    rw [e4]
    simp [initialState]

/-- C5: an inactive territory is never the covering territory, never the
closest territory, and never synthesized; when every active territory fails
containment (in particular when the only containing territory is inactive),
the status is `not_covered`. -/
theorem C5_theorem (geo : String → Option Coordinates)
    (dist : Coordinates → Coordinates → ℚ) (p : Coordinates)
    (ts : List Territory) (address : String)
    (hgeo : geo address = some p) :
    (∀ twb, (coverageLoop geo dist p initialState ts).covered = some twb →
        twb.territory.active = true) ∧
    (∀ twb d, (coverageLoop geo dist p initialState ts).closest
        = some (twb, d) → twb.territory.active = true) ∧
    (∀ t ∈ (coverageLoop geo dist p initialState ts).synthesized,
        t.active = true) ∧
    ((∀ t ∈ ts, t.active = true → territoryContains geo p t = false) →
      ∃ r, (checkTerritoryCoverage geo dist (.ok ts) address).result
          = .ok r ∧ r.coverage_status = "not_covered") := by
  obtain ⟨i1, i2, i3⟩ :=
    coverageLoop_active_invariant geo dist p ts initialState
      (by simp [initialState]) (by simp [initialState])
      (by simp [initialState])
  refine ⟨i1, i2, i3, ?_⟩
  intro hnone
  have hcov := coverageLoop_covered_none geo dist p ts initialState rfl hnone
  refine ⟨buildResponse address p (coverageLoop geo dist p initialState ts),
    ?_, ?_⟩
  · simp [checkTerritoryCoverage, hgeo]
  · simp [buildResponse, hcov]

/-- A copy of the one-zip territory marked inactive. -/
def terOneInactive : Territory :=
  { terOne with active := false }

/-- A geocoding oracle for the C5 witness: resolves the query address and
the zip code `"z1"` to the same point. -/
def geoAddr : String → Option Coordinates :=
  fun s => if s = "addr" then some ⟨0, 0⟩
    else if s = "z1" then some ⟨0, 0⟩ else none

/-- C5, witness: a lone inactive territory that would contain the point
yields `not_covered`. -/
theorem C5_witness :
    ∃ r, (checkTerritoryCoverage geoAddr (fun _ _ => 0)
        (.ok [terOneInactive]) "addr").result = .ok r ∧
      r.coverage_status = "not_covered" :=
  (C5_theorem geoAddr (fun _ _ => 0) ⟨0, 0⟩ [terOneInactive] "addr"
      (by simp +decide [geoAddr])).2.2.2
    (by intro t ht hact
        simp only [List.mem_singleton] at ht
        subst ht
        simp [terOneInactive, terOne] at hact)

/-- C4: when geocoding the query address fails, the handler returns the
error-flagged result with a human-readable message, the `/territories`
request is never issued, and no `CoverageResult` accompanies the error. -/
theorem C4_theorem (geo : String → Option Coordinates)
    (dist : Coordinates → Coordinates → ℚ)
    (fetch : Except String (List Territory)) (address : String)
    (h : geo address = none) :
    checkTerritoryCoverage geo dist fetch address
      = ⟨.error (coverageErrorText (geocodeFailMsg address)), false⟩ := by
  simp [checkTerritoryCoverage, h]

/-- C4, witness: the always-failing oracle. -/
theorem C4_witness :
    checkTerritoryCoverage (fun _ => none) (fun _ _ => 0) (.ok [])
        "nowhere"
      = ⟨.error (coverageErrorText (geocodeFailMsg "nowhere")), false⟩ :=
  C4_theorem (fun _ => none) (fun _ _ => 0) (.ok []) "nowhere" rfl

/-- C7: an individual geocoding failure during boundary synthesis is
skipped — the collected vertices are exactly the successful results of the
attempted queries, in order — and the overall coverage check still returns
a non-error result. -/
theorem C7_theorem (geo : String → Option Coordinates)
    (dist : Coordinates → Coordinates → ℚ) (t : Territory)
    (address : String) (p : Coordinates) (ts : List Territory)
    (h : geo address = some p) :
    rawPoints geo t = (attemptedQs geo t).filterMap geo ∧
    ∃ r, (checkTerritoryCoverage geo dist (.ok ts) address).result
        = .ok r := by
  constructor
  · unfold rawPoints attemptedQs zipPoints cityPoints
    by_cases hz : ((zipQs t).filterMap geo).length < 3 <;>
      simp [hz, List.filterMap_append]
  · refine ⟨buildResponse address p (coverageLoop geo dist p initialState ts), ?_⟩
    simp [checkTerritoryCoverage, h]

/-- C7, witness: a territory whose second zip code fails to geocode. -/
theorem C7_witness :
    rawPoints geoOne terTwo = (attemptedQs geoOne terTwo).filterMap geoOne ∧
    ∃ r, (checkTerritoryCoverage geoOne (fun _ _ => 0)
        (.ok [terTwo]) "z1").result = .ok r :=
  C7_theorem geoOne (fun _ _ => 0) terTwo "z1" ⟨0, 0⟩ [terTwo]
    (by simp +decide [geoOne])

/-- A geocoding oracle for the C9 witness: the address and zip `"z1"`
resolve to the origin, zip `"z9"` resolves far away. -/
def geoC9 : String → Option Coordinates :=
  fun s => if s = "addr" then some ⟨0, 0⟩
    else if s = "z1" then some ⟨0, 0⟩
    else if s = "z9" then some ⟨50, 50⟩ else none

/-- An active territory far from the origin (single zip `"z9"`). -/
def terFar : Territory :=
  { id := "T9", name := "Far", description := none,
    zip_codes := some ["z9"], cities := none, states := none, active := true }

/-- The one-zip fixture territory contains the origin under `geoC9` too. -/
lemma terOne_contains_geoC9 :
    territoryContains geoC9 ⟨0, 0⟩ terOne = true := by
  simp +decide [territoryContains, createTerritoryBoundaries, finalVertices,
    squareCorners, rawPoints, zipPoints, cityPoints, zipQs, cityQs, geoC9,
    terOne, List.filterMap, isPointInPolygon, edgeCrosses]
  norm_num

/-- The far territory does not contain the origin under `geoC9`. -/
lemma terFar_not_contains :
    territoryContains geoC9 ⟨0, 0⟩ terFar = false := by
  simp +decide [territoryContains, createTerritoryBoundaries, finalVertices,
    squareCorners, rawPoints, zipPoints, cityPoints, zipQs, cityQs, geoC9,
    terFar, List.filterMap, isPointInPolygon, edgeCrosses]
  norm_num

/-- C9, witness: with one active non-containing territory before the
covering one, the analysis lists exactly that first territory. -/
theorem C9_witness :
    ∃ r, (checkTerritoryCoverage geoC9 (fun _ _ => 0)
        (.ok ([terFar] ++ terOne :: [])) "addr").result = .ok r ∧
      r.coverage_status = "covered" ∧
      r.all_territories_checked
        = (List.filter (fun t => t.active) [terFar]).length ∧
      r.territories_analysis
        = (List.filter (fun t => t.active) [terFar]).map
            (analysisEntry geoC9 (fun _ _ => 0) ⟨0, 0⟩) :=
  C9_theorem geoC9 (fun _ _ => 0) ⟨0, 0⟩ "addr" [terFar] [] terOne
    (by simp +decide [geoC9]) rfl terOne_contains_geoC9
    (by intro t ht _
        simp only [List.mem_singleton] at ht
        subst ht
        exact terFar_not_contains)

/-! ## Determinism of the coverage check -/

lemma rawPoints_congr (geo1 geo2 : String → Option Coordinates)
    (t : Territory) (h : ∀ q ∈ territoryQs t, geo1 q = geo2 q) :
    rawPoints geo1 t = rawPoints geo2 t := by
  have hz : zipPoints geo1 t = zipPoints geo2 t :=
    List.filterMap_congr fun q hq => h q (by simp [territoryQs, hq])
  have hc : cityPoints geo1 t = cityPoints geo2 t :=
    List.filterMap_congr fun q hq => h q (by simp [territoryQs, hq])
  unfold rawPoints
  rw [hz, hc]

lemma createTerritoryBoundaries_congr (geo1 geo2 : String → Option Coordinates)
    (t : Territory) (h : ∀ q ∈ territoryQs t, geo1 q = geo2 q) :
    createTerritoryBoundaries geo1 t = createTerritoryBoundaries geo2 t := by
  unfold createTerritoryBoundaries finalVertices
  rw [rawPoints_congr geo1 geo2 t h]

lemma territoryContains_congr (geo1 geo2 : String → Option Coordinates)
    (p : Coordinates) (t : Territory)
    (h : ∀ q ∈ territoryQs t, geo1 q = geo2 q) :
    territoryContains geo1 p t = territoryContains geo2 p t := by
  unfold territoryContains
  rw [createTerritoryBoundaries_congr geo1 geo2 t h]

lemma coverageLoop_congr (geo1 geo2 : String → Option Coordinates)
    (dist : Coordinates → Coordinates → ℚ) (p : Coordinates) :
    ∀ (ts : List Territory),
      (∀ t ∈ ts, ∀ q ∈ territoryQs t, geo1 q = geo2 q) →
      ∀ st, coverageLoop geo1 dist p st ts = coverageLoop geo2 dist p st ts := by
  intro ts
  induction ts with
  | nil => intro _ st; rfl
  | cons t ts ih =>
    intro h st
    have ht : ∀ q ∈ territoryQs t, geo1 q = geo2 q :=
      h t (List.mem_cons_self t ts)
    have h' : ∀ t' ∈ ts, ∀ q ∈ territoryQs t', geo1 q = geo2 q :=
      fun t' ht' => h t' (List.mem_cons_of_mem t ht')
    have hcb := createTerritoryBoundaries_congr geo1 geo2 t ht
    have hcc := territoryContains_congr geo1 geo2 p t ht
    by_cases ha : t.active = true
    · by_cases hc : territoryContains geo1 p t = true
      · have hc2 : territoryContains geo2 p t = true := by rw [← hcc]; exact hc
        simp only [coverageLoop, ha, if_true, hc, hc2, hcb]
      · have hcf : territoryContains geo1 p t = false := by simpa using hc
        have hcf2 : territoryContains geo2 p t = false := by
          rw [← hcc]; exact hcf
        simp only [coverageLoop, ha, if_true, hcf, hcf2, Bool.false_eq_true,
          if_false, hcb]
        exact ih h' _
    · have ha' : t.active = false := by simpa using ha
      simp only [coverageLoop, ha', Bool.false_eq_true, if_false]
      exact ih h' st

/-- C8: the coverage check is deterministic — two runs with the same
address, the same territory list, the same distance function, and
geocoding oracles that agree on the address and on every query any
territory can issue produce identical outcomes. -/
theorem C8_theorem (geo1 geo2 : String → Option Coordinates)
    (dist : Coordinates → Coordinates → ℚ) (ts : List Territory)
    (address : String)
    (haddr : geo1 address = geo2 address)
    (hq : ∀ t ∈ ts, ∀ q ∈ territoryQs t, geo1 q = geo2 q) :
    checkTerritoryCoverage geo1 dist (.ok ts) address
      = checkTerritoryCoverage geo2 dist (.ok ts) address := by
  unfold checkTerritoryCoverage
  rw [haddr]
  cases hg : geo2 address with
  | none => rfl
  | some p =>
    simp only
    rw [coverageLoop_congr geo1 geo2 dist p ts hq initialState]

/-- C8, witness: two definitionally different oracles agreeing on the
relevant queries give the identical outcome. -/
theorem C8_witness :
    checkTerritoryCoverage geoOne (fun _ _ => 0) (.ok [terOne]) "z1"
      = checkTerritoryCoverage
          (fun s => if s = "z1" then some ⟨0, 0⟩ else none)
          (fun _ _ => 0) (.ok [terOne]) "z1" :=
  C8_theorem geoOne (fun s => if s = "z1" then some ⟨0, 0⟩ else none)
    (fun _ _ => 0) [terOne] "z1" rfl (fun _ _ _ _ => rfl)

end Zenbooker
